import Mathlib

/-!
# A shallow embedding of the pantomime-vm interpreter core

This file embeds the interpreter core of the `pantomime-vm` repository
(`src/frame.rs`, `src/lib.rs`) in Lean 4 and proves properties of it.

Modelling conventions:
* Rust `Vec` becomes `List`; the operand stack keeps its *top at the head*
  (a `Vec` pushes and pops at its end).
* Rust `HashMap` becomes an association list with replace-on-insert
  (`putAssoc`) and first-match lookup (`findAssoc`).
* Machine integers (`i8`/`i16`/`i32`/`i64`) become `Int` together with
  explicit two's-complement wrapping (`wrap8` … `wrap64`).  `+`, `-`, `*`
  and `<<` on machine integers follow release-profile Rust and wrap;
  integer division by zero, and overflowing division (`MIN / -1`), abort
  the process in every Rust profile and are modelled by the `abort`
  outcome below.
* A Rust panic (`panic!`, failed `expect`/`unwrap`, out-of-bounds `Vec`
  indexing) is the `StepExec.abort` outcome, kept distinct from the
  `Result::Err` channel (`StepExec.fail`), exactly as in the source.
* `u8` code bytes are stored as `Nat`; each fetch reduces modulo 256,
  which encodes the `u8` type of `CodeAttribute::code` elements.
* The classfile parser is an external collaborator of the repository
  (crate `pantomime_parser`, not under its `src/`); its constant-pool
  items and typed retrieval functions are modelled from the spec (§6).
-/

deriving instance DecidableEq for Except

namespace Pantomime

/-! ## Two's-complement helpers -/

/-- Wrap an integer into the `i8` range (Rust `as i8` truncation). -/
def wrap8 (z : Int) : Int := (z + 2 ^ 7) % 2 ^ 8 - 2 ^ 7

/-- Wrap an integer into the `i16` range (release-profile `i16` overflow). -/
def wrap16 (z : Int) : Int := (z + 2 ^ 15) % 2 ^ 16 - 2 ^ 15

/-- Wrap an integer into the `i32` range (release-profile `i32` overflow). -/
def wrap32 (z : Int) : Int := (z + 2 ^ 31) % 2 ^ 32 - 2 ^ 31

/-- Wrap an integer into the `i64` range (release-profile `i64` overflow). -/
def wrap64 (z : Int) : Int := (z + 2 ^ 63) % 2 ^ 64 - 2 ^ 63

/-- Reinterpret a `u16` bit pattern as a signed `i16`
(`(index_one << 8) | index_two` read as a signed offset). -/
def toSigned16 (n : Nat) : Int := if n < 2 ^ 15 then (n : Int) else (n : Int) - 2 ^ 16

/-- Reinterpret a `u32` bit pattern as a signed `i32` (`bytes as i32`). -/
def toSigned32 (n : Nat) : Int := if n < 2 ^ 31 then (n : Int) else (n : Int) - 2 ^ 32

/-- Rust `as usize` on a signed value: two's-complement reinterpretation
into `[0, 2^64)`. -/
def intAsUsize (z : Int) : Nat := (z % 2 ^ 64).toNat

/-- Rust `usize` subtraction in the release profile (wraps on underflow);
used by the `code_position.current() - 1` at the end of `Frame::step`. -/
def usizeSub (a b : Nat) : Nat := (((a : Int) - (b : Int)) % 2 ^ 64).toNat

/-! ## Association lists standing in for `HashMap` -/

/-- `HashMap` lookup (`get`): first binding of the key, if any. -/
def findAssoc {α : Type} (k : String) : List (String × α) → Option α
  | [] => none
  | (k', v) :: rest => if k' = k then some v else findAssoc k rest

/-- `HashMap::insert`: replace the binding of `k` if present, else append. -/
def putAssoc {α : Type} (k : String) (v : α) : List (String × α) → List (String × α)
  | [] => [(k, v)]
  | (k', v') :: rest => if k' = k then (k, v) :: rest else (k', v') :: putAssoc k v rest

/-- `HashMap` lookup for `u64` keys (the object heap). -/
def findHeap {α : Type} (k : Nat) : List (Nat × α) → Option α
  | [] => none
  | (k', v) :: rest => if k' = k then some v else findHeap k rest

/-- `HashMap::insert` for `u64` keys (the object heap). -/
def putHeap {α : Type} (k : Nat) (v : α) : List (Nat × α) → List (Nat × α)
  | [] => [(k, v)]
  | (k', v') :: rest => if k' = k then (k, v) :: rest else (k', v') :: putHeap k v rest

/-! ## The value model (`JavaType`, frame.rs lines 123–196) -/

/-- `frame.rs` `enum JavaType`.  `Byte` holds an `i8`, `Int` an `i32`,
`Long` an `i64`, `Reference` a `u64` heap handle. -/
inductive JavaType : Type
  | Byte (value : Int)
  | Char (value : Char)
  | Int (value : Int)
  | Long (value : Int)
  | Reference (value : Nat)
  | Null
  | Filler
  | Empty
deriving DecidableEq, Repr

/-- `JavaType::to_friendly_name`. -/
def JavaType.to_friendly_name : JavaType → String
  | .Byte _ => "Byte"
  | .Char _ => "Char"
  | .Int _ => "Int"
  | .Long _ => "Long"
  | .Reference _ => "Reference"
  | .Null => "Null"
  | .Filler => "Filler"
  | .Empty => "Empty"

/-! ## Errors (frame.rs lines 100–121, lib.rs lines 54–61) -/

/-- `lib.rs` `enum DataStoreError`. -/
inductive DataStoreError : Type
  | InvalidPointer (pointer : Nat)
  | UnexpectedHeapType
  | UninitializedClass (name : String)
  | StaticFieldNotFound (name : String)
  | FieldNotFound (name : String)
deriving DecidableEq, Repr

/-- `frame.rs` `enum StepError`.  `ParserError` payloads (from the external
parser crate) are modelled as message strings. -/
inductive StepError : Type
  | CodeIndexOutOfBounds (pos : Nat)
  | UnexpectedEmptyVec
  | Parser (message : String)
  | UnexpectedConstantPoolItem (kind : String)
  | UnknownOpcode (opcode : Nat)
  | UnexpectedJavaType (kind : String)
  | DataStore (error : DataStoreError)
deriving DecidableEq, Repr

/-! ## Constant pool (modelled from the spec) -/

/-- Modelled from the spec: the constant-pool item variants the interpreter
consults (§6), as produced by the external `pantomime_parser` crate, which
is not part of this repository's sources.  `StringItem` carries the
already-resolved UTF-8 contents (`resolve_string_constant`); `IntegerItem`
carries the raw `u32` `bytes`, `LongItem` the raw `u32` halves. -/
inductive ConstantPoolItem : Type
  | Utf8 (value : String)
  | ClassItem (name_index : Nat)
  | NameAndType (name_index : Nat) (descriptor_index : Nat)
  | Fieldref (class_index : Nat) (name_and_type_index : Nat)
  | Methodref (class_index : Nat) (name_and_type_index : Nat)
  | InterfaceMethodref (class_index : Nat) (name_and_type_index : Nat)
  | StringItem (contents : String)
  | IntegerItem (bytes : Nat)
  | LongItem (high_bytes : Nat) (low_bytes : Nat)
deriving DecidableEq, Repr

/-- `ConstantPoolItem::to_friendly_name` (modelled from the spec's item
names, §6). -/
def ConstantPoolItem.to_friendly_name : ConstantPoolItem → String
  | .Utf8 _ => "Utf8"
  | .ClassItem _ => "Class"
  | .NameAndType _ _ => "NameAndType"
  | .Fieldref _ _ => "Fieldref"
  | .Methodref _ _ => "Methodref"
  | .InterfaceMethodref _ _ => "InterfaceMethodref"
  | .StringItem _ => "String"
  | .IntegerItem _ => "Integer"
  | .LongItem _ _ => "Long"

/-- Modelled from the spec: `ConstantPoolItem::retrieve_item` of the parser
crate — index into the pool, a missing index is a parser error. -/
def retrieve_item (index : Nat) (pool : List ConstantPoolItem) :
    Except StepError ConstantPoolItem :=
  match pool.get? index with
  | some item => .ok item
  | none => .error (.Parser "constant pool index out of bounds")

/-- Modelled from the spec: typed `Class` retrieval of the parser crate. -/
def retrieve_class_info (index : Nat) (pool : List ConstantPoolItem) :
    Except StepError Nat :=
  match retrieve_item index pool with
  | .ok (.ClassItem name_index) => .ok name_index
  | .ok _ => .error (.Parser "expected Class constant")
  | .error e => .error e

/-- Modelled from the spec: typed `NameAndType` retrieval of the parser
crate. -/
def retrieve_name_and_type_info (index : Nat) (pool : List ConstantPoolItem) :
    Except StepError (Nat × Nat) :=
  match retrieve_item index pool with
  | .ok (.NameAndType n d) => .ok (n, d)
  | .ok _ => .error (.Parser "expected NameAndType constant")
  | .error e => .error e

/-- Modelled from the spec: typed `Utf8` retrieval of the parser crate. -/
def retrieve_utf8_info (index : Nat) (pool : List ConstantPoolItem) :
    Except StepError String :=
  match retrieve_item index pool with
  | .ok (.Utf8 s) => .ok s
  | .ok _ => .error (.Parser "expected Utf8 constant")
  | .error e => .error e

/-- Modelled from the spec: typed `Fieldref` retrieval of the parser
crate. -/
def retrieve_field_info (index : Nat) (pool : List ConstantPoolItem) :
    Except StepError (Nat × Nat) :=
  match retrieve_item index pool with
  | .ok (.Fieldref c nt) => .ok (c, nt)
  | .ok _ => .error (.Parser "expected Fieldref constant")
  | .error e => .error e

/-- Modelled from the spec: typed `Methodref` retrieval of the parser
crate. -/
def retrieve_method_info (index : Nat) (pool : List ConstantPoolItem) :
    Except StepError (Nat × Nat) :=
  match retrieve_item index pool with
  | .ok (.Methodref c nt) => .ok (c, nt)
  | .ok _ => .error (.Parser "expected Methodref constant")
  | .error e => .error e

/-- `frame.rs` `InitializedFieldInfo` / `InitializedMethodInfo` (the
macro-generated structs are identical). -/
structure InitializedInfo : Type where
  class_name : String
  name : String
  descriptor : String
deriving DecidableEq, Repr

/-- `frame.rs` `Resolver::resolve_field_info` (macro-generated): follow a
`Fieldref` through `Class` and `NameAndType` to the three `Utf8` items. -/
def resolve_field_info (index : Nat) (pool : List ConstantPoolItem) :
    Except StepError InitializedInfo := do
  let (class_index, name_and_type_index) ← retrieve_field_info index pool
  let class_name_index ← retrieve_class_info class_index pool
  let (name_index, descriptor_index) ← retrieve_name_and_type_info name_and_type_index pool
  let class_name ← retrieve_utf8_info class_name_index pool
  let name ← retrieve_utf8_info name_index pool
  let descriptor ← retrieve_utf8_info descriptor_index pool
  return ⟨class_name, name, descriptor⟩

/-- `frame.rs` `Resolver::resolve_method_info` (macro-generated): the same
walk starting from a `Methodref`. -/
def resolve_method_info (index : Nat) (pool : List ConstantPoolItem) :
    Except StepError InitializedInfo := do
  let (class_index, name_and_type_index) ← retrieve_method_info index pool
  let class_name_index ← retrieve_class_info class_index pool
  let (name_index, descriptor_index) ← retrieve_name_and_type_info name_and_type_index pool
  let class_name ← retrieve_utf8_info class_name_index pool
  let name ← retrieve_utf8_info name_index pool
  let descriptor ← retrieve_utf8_info descriptor_index pool
  return ⟨class_name, name, descriptor⟩

/-! ## The data store (lib.rs lines 339–572) -/

/-- `lib.rs` `struct ClassStaticInfo`. -/
structure ClassStaticInfo : Type where
  static_fields : List (String × JavaType)
deriving DecidableEq, Repr

/-- `ClassStaticInfo::new`. -/
def ClassStaticInfo.new : ClassStaticInfo := ⟨[]⟩

/-- `lib.rs` `struct AllocatedObject`. -/
structure AllocatedObject : Type where
  class_name : String
  instance_variables : List (String × JavaType)
deriving DecidableEq, Repr

/-- `lib.rs` `struct AllocatedArray`.  `count` is the `i32` passed to
`allocate_array`; `store` is the element vector. -/
structure AllocatedArray : Type where
  count : Int
  store : List JavaType
deriving DecidableEq, Repr

/-- `AllocatedArray::new(count)`: `count` elements, all `Null`.  A negative
`count` makes `Vec::with_capacity(count as usize)` ask for an absurd
capacity and abort, hence `none`. -/
def AllocatedArray.new (count : Int) : Option AllocatedArray :=
  if count < 0 then none
  else some ⟨count, List.replicate count.toNat JavaType.Null⟩

/-- `AllocatedArray`'s `Index<i32>` implementation:
`self.store.index(_index as usize)`; an out-of-range index is a `Vec`
indexing abort, hence `none`. -/
def AllocatedArray.index (array : AllocatedArray) (i : Int) : Option JavaType :=
  array.store.get? (intAsUsize i)

/-- `AllocatedArray`'s `IndexMut<i32>` implementation used by
`array[index] = value`; an out-of-range index aborts, hence `none`. -/
def AllocatedArray.indexSet (array : AllocatedArray) (i : Int) (v : JavaType) :
    Option AllocatedArray :=
  if intAsUsize i < array.store.length
  then some ⟨array.count, array.store.set (intAsUsize i) v⟩
  else none

/-- `lib.rs` `enum HeapAllocation`. -/
inductive HeapAllocation : Type
  | Object (object : AllocatedObject)
  | Array (array : AllocatedArray)
deriving DecidableEq, Repr

/-- `lib.rs` `struct ObjectHeap`. -/
structure ObjectHeap : Type where
  current_pointer : Nat
  objects : List (Nat × HeapAllocation)
deriving DecidableEq, Repr

/-- `ObjectHeap::resolve_pointer`: any non-`Reference` value aborts
(`panic!("Unexpected JavaType: …")`), hence `none`. -/
def ObjectHeap.resolve_pointer : JavaType → Option Nat
  | .Reference value => some value
  | _ => none

/-- `ObjectHeap::get` (and `get_mut`): resolve the pointer (abort on a
non-`Reference`, the outer `none`) then look it up (missing handle is the
recoverable `InvalidPointer`). -/
def ObjectHeap.get (heap : ObjectHeap) (pointer : JavaType) :
    Option (Except DataStoreError HeapAllocation) :=
  match ObjectHeap.resolve_pointer pointer with
  | none => none
  | some p =>
    some (match findHeap p heap.objects with
          | some allocation => .ok allocation
          | none => .error (.InvalidPointer p))

/-- `ObjectHeap::get_array` (and `get_array_mut`). -/
def ObjectHeap.get_array (heap : ObjectHeap) (pointer : JavaType) :
    Option (Except DataStoreError AllocatedArray) :=
  match ObjectHeap.get heap pointer with
  | none => none
  | some (.ok (.Array array)) => some (.ok array)
  | some (.ok (.Object _)) => some (.error .UnexpectedHeapType)
  | some (.error e) => some (.error e)

/-- `ObjectHeap::get_object` (and `get_object_mut`). -/
def ObjectHeap.get_object (heap : ObjectHeap) (pointer : JavaType) :
    Option (Except DataStoreError AllocatedObject) :=
  match ObjectHeap.get heap pointer with
  | none => none
  | some (.ok (.Object object)) => some (.ok object)
  | some (.ok (.Array _)) => some (.error .UnexpectedHeapType)
  | some (.error e) => some (.error e)

/-- `ObjectHeap::get_field`: field lookup on an object. -/
def ObjectHeap.get_field (heap : ObjectHeap) (pointer : JavaType)
    (field_name : String) : Option (Except DataStoreError JavaType) :=
  match ObjectHeap.get_object heap pointer with
  | none => none
  | some (.error e) => some (.error e)
  | some (.ok object) =>
    some (match findAssoc field_name object.instance_variables with
          | some v => .ok v
          | none => .error (.FieldNotFound field_name))

/-- `ObjectHeap::set_field`: `get_object_mut(..).expect(..)` aborts on any
retrieval error (`none`); otherwise replace the field binding. -/
def ObjectHeap.set_field (heap : ObjectHeap) (pointer : JavaType)
    (field_name : String) (value : JavaType) : Option ObjectHeap :=
  match ObjectHeap.resolve_pointer pointer with
  | none => none
  | some p =>
    match findHeap p heap.objects with
    | some (.Object object) =>
      some ⟨heap.current_pointer,
            putHeap p
              (.Object ⟨object.class_name,
                        putAssoc field_name value object.instance_variables⟩)
              heap.objects⟩
    | _ => none

/-- `ObjectHeap::allocate_array`: insert a fresh array at the current
pointer and bump it; a negative count aborts inside
`AllocatedArray::new`. -/
def ObjectHeap.allocate_array (heap : ObjectHeap) (count : Int) :
    Option (Nat × ObjectHeap) :=
  match AllocatedArray.new count with
  | none => none
  | some array =>
    some (heap.current_pointer,
          ⟨heap.current_pointer + 1,
           putHeap heap.current_pointer (.Array array) heap.objects⟩)

/-- `lib.rs` `struct CommonDataStore`. -/
structure CommonDataStore : Type where
  class_statics : List (String × ClassStaticInfo)
  object_heap : ObjectHeap
deriving DecidableEq, Repr

/-- `CommonDataStore::new`. -/
def CommonDataStore.new : CommonDataStore := ⟨[], ⟨0, []⟩⟩

/-- `CommonDataStore::has_class_statics`. -/
def CommonDataStore.has_class_statics (ds : CommonDataStore)
    (class_name : String) : Bool :=
  (findAssoc class_name ds.class_statics).isSome

/-- `CommonDataStore::register_class`: unconditionally insert a fresh empty
statics map under `class_name` (`HashMap::insert` replaces any previous
binding). -/
def CommonDataStore.register_class (ds : CommonDataStore)
    (class_name : String) : CommonDataStore :=
  ⟨putAssoc class_name ClassStaticInfo.new ds.class_statics, ds.object_heap⟩

/-- `CommonDataStore::set_class_static`: `get_mut(..).expect(..)` aborts if
the class is not registered (`none`); otherwise insert the field value. -/
def CommonDataStore.set_class_static (ds : CommonDataStore)
    (class_name field_name : String) (value : JavaType) :
    Option CommonDataStore :=
  match findAssoc class_name ds.class_statics with
  | none => none
  | some info =>
    some ⟨putAssoc class_name ⟨putAssoc field_name value info.static_fields⟩
            ds.class_statics,
          ds.object_heap⟩

/-- `CommonDataStore::get_class_static`. -/
def CommonDataStore.get_class_static (ds : CommonDataStore)
    (class_name field_name : String) : Except DataStoreError JavaType :=
  match findAssoc class_name ds.class_statics with
  | none => .error (.UninitializedClass class_name)
  | some info =>
    match findAssoc field_name info.static_fields with
    | some v => .ok v
    | none => .error (.StaticFieldNotFound field_name)

/-! ## Method descriptors (frame.rs lines 13–17 and 608–645) -/

/-- A character of the `arguments` capture class of `DESCRIPTOR_REGEX`:
`[A-Za-z/\[;]`. -/
def argumentClassChar (c : Char) : Bool :=
  (('A' ≤ c && c ≤ 'Z') || ('a' ≤ c && c ≤ 'z')) || c = '/' || c = '[' || c = ';'

/-- A character of the `return` capture class of `DESCRIPTOR_REGEX`:
`[A-Za-z\[;]`. -/
def returnClassChar (c : Char) : Bool :=
  (('A' ≤ c && c ≤ 'Z') || ('a' ≤ c && c ≤ 'z')) || c = '[' || c = ';'

/-- The `arguments` capture of
`^\((?P<arguments>[A-Za-z/\[;]+)\)(?P<return>[A-Za-z\[;]+)$` on the
descriptor, if the regex matches.  Neither class contains a parenthesis,
so the capture is exactly the span between the leading `(` and the first
`)`, and the return part must fill the rest of the string. -/
def descriptorArgumentsCapture (descriptor : String) : Option (List Char) :=
  match descriptor.data with
  | '(' :: rest =>
    let args := rest.takeWhile (fun c => c ≠ ')')
    match rest.dropWhile (fun c => c ≠ ')') with
    | ')' :: ret =>
      if !args.isEmpty && args.all argumentClassChar
          && !ret.isEmpty && ret.all returnClassChar
      then some args else none
    | _ => none
  | _ => none

/-- The counting loop of `determine_number_of_arguments`, one character at
a time.  The boolean is true while the inner `while` of the `L` arm is
consuming a class name up to its `;` (the `L` already counted).  Outside a
class name, `B C F I S Z` count 1, `J D` count 2, and any other character
— including `[` — hits `panic!("Unknown descriptor character: …")`,
modelled as `none`. -/
def countArgumentsFrom : Bool → List Char → Option Nat
  | true, [] => some 0
  | true, c :: rest =>
    if c = ';' then countArgumentsFrom false rest else countArgumentsFrom true rest
  | false, [] => some 0
  | false, c :: rest =>
    if c = 'L' then
      match countArgumentsFrom true rest with
      | some n => some (n + 1)
      | none => none
    else if c = 'B' ∨ c = 'C' ∨ c = 'F' ∨ c = 'I' ∨ c = 'S' ∨ c = 'Z' then
      match countArgumentsFrom false rest with
      | some n => some (n + 1)
      | none => none
    else if c = 'J' ∨ c = 'D' then
      match countArgumentsFrom false rest with
      | some n => some (n + 2)
      | none => none
    else none

/-- The counting loop of `determine_number_of_arguments` over the
`arguments` capture. -/
def countArguments (args : List Char) : Option Nat :=
  countArgumentsFrom false args

/-- `Frame::determine_number_of_arguments`: 0 when the regex does not
match, else the count over the `arguments` capture (`none` models the
panic on an unhandled character such as `[`). -/
def determine_number_of_arguments (descriptor : String) : Option Nat :=
  match descriptorArgumentsCapture descriptor with
  | none => some 0
  | some args => countArguments args

/-! ## Argument vectors (frame.rs lines 647–661) -/

/-- `Frame::build_arguments` (invokevirtual/invokespecial): pop `count`
values, each inserted at the *front* of `args`, so the deepest popped value
ends first.  Also returns the remaining stack; an empty-stack pop is the
`pop_operand!` abort (`none`). -/
def build_arguments : Nat → List JavaType → Option (List JavaType × List JavaType)
  | 0, stack => some ([], stack)
  | _ + 1, [] => none
  | count + 1, v :: rest =>
    match build_arguments count rest with
    | some (args, remaining) => some (args ++ [v], remaining)
    | none => none

/-- `Frame::build_static_arguments` (invokestatic): pop `count` values,
each *pushed to the back* of `args`, so `args` lists them in pop order —
`args[0]` is the value that was on top of the operand stack. -/
def build_static_arguments : Nat → List JavaType → Option (List JavaType × List JavaType)
  | 0, stack => some ([], stack)
  | _ + 1, [] => none
  | count + 1, v :: rest =>
    match build_static_arguments count rest with
    | some (args, remaining) => some (v :: args, remaining)
    | none => none

/-! ## Frames (frame.rs lines 42–68 and 198–237) -/

/-- The `Code` attribute contents the frame consumes (spec §6). -/
structure CodeAttribute : Type where
  max_locals : Nat
  max_stack : Nat
  code : List Nat
deriving DecidableEq, Repr

/-- `frame.rs` `struct Frame`.  `code_position` is the `isize` of
`Codepoint`; of the classfile only the constant pool is consumed. -/
structure Frame : Type where
  constant_pool : List ConstantPoolItem
  code_attribute : CodeAttribute
  code_position : Int
  operand_stack : List JavaType
  locals : List JavaType
deriving DecidableEq, Repr

/-- The `for (i, item) in provided_variables.drain(..).enumerate()` loop of
`Frame::new`: `locals[i] = item` aborts (`none`) when `i` is out of
bounds, i.e. when more arguments are provided than `max_locals`. -/
def storeProvidedVariables :
    List JavaType → Nat → List JavaType → Option (List JavaType)
  | [], _, locals => some locals
  | item :: rest, i, locals =>
    if i < locals.length
    then storeProvidedVariables rest (i + 1) (locals.set i item)
    else none

/-- `Frame::new`: locals sized to `max_locals` and pre-filled with `Empty`,
then the provided arguments written into slots `0..`. -/
def Frame.new (constant_pool : List ConstantPoolItem)
    (code_attribute : CodeAttribute) (provided_variables : List JavaType) :
    Option Frame :=
  match storeProvidedVariables provided_variables 0
      (List.replicate code_attribute.max_locals JavaType.Empty) with
  | some locals => some ⟨constant_pool, code_attribute, 0, [], locals⟩
  | none => none

/-- `Frame::push_operand_stack_value` (the top of the stack is the head). -/
def Frame.push (fr : Frame) (value : JavaType) : Frame :=
  { fr with operand_stack := value :: fr.operand_stack }

/-- `pop_operand!`: `pop().expect("Operand stack was unexpectedly empty")`;
`none` is the abort. -/
def popOperand : List JavaType → Option (JavaType × List JavaType)
  | [] => none
  | v :: rest => some (v, rest)

/-- `JavaType::pop_int`: the value is popped first; a wrong variant then
yields `UnexpectedJavaType` (with the stack already popped). -/
def popInt : List JavaType → List JavaType × Except StepError Int
  | [] => ([], .error .UnexpectedEmptyVec)
  | .Int value :: rest => (rest, .ok value)
  | unexpected :: rest => (rest, .error (.UnexpectedJavaType unexpected.to_friendly_name))

/-- `JavaType::pop_long`. -/
def popLong : List JavaType → List JavaType × Except StepError Int
  | [] => ([], .error .UnexpectedEmptyVec)
  | .Long value :: rest => (rest, .ok value)
  | unexpected :: rest => (rest, .error (.UnexpectedJavaType unexpected.to_friendly_name))

/-- `JavaType::retrieve_int` (non-destructive indexed read, used by
`iinc`). -/
def retrieveInt (index : Nat) (locals : List JavaType) :
    Except StepError Int :=
  match locals.get? index with
  | none => .error .UnexpectedEmptyVec
  | some (.Int value) => .ok value
  | some unexpected => .error (.UnexpectedJavaType unexpected.to_friendly_name)

/-- `JavaType::load`: indexed read that aborts (`none`) when the slot does
not exist (`expect("Expected vec to contain item at index: …")`). -/
def JavaType.load (index : Nat) (locals : List JavaType) : Option JavaType :=
  locals.get? index

/-- `Frame::next_opcode_entry_u1` (`retrieve_and_advance!`): the position
is incremented before the bounds check resolves, so the error carries the
*post*-increment position; the fetched `u8` is reduced mod 256. -/
def nextOpcodeEntryU1 (fr : Frame) : Frame × Except StepError Nat :=
  let fr' := { fr with code_position := fr.code_position + 1 }
  match fr.code_attribute.code.get? (intAsUsize fr.code_position) with
  | some b => (fr', .ok (b % 256))
  | none => (fr', .error (.CodeIndexOutOfBounds (intAsUsize fr'.code_position)))

/-- `Frame::next_opcode_entry_u2`: `(index_one << 8) | index_two`. -/
def nextOpcodeEntryU2 (fr : Frame) : Frame × Except StepError Nat :=
  match nextOpcodeEntryU1 fr with
  | (fr1, .error e) => (fr1, .error e)
  | (fr1, .ok b1) =>
    match nextOpcodeEntryU1 fr1 with
    | (fr2, .error e) => (fr2, .error e)
    | (fr2, .ok b2) => (fr2, .ok (b1 * 256 + b2))

/-- `Frame::next_opcode_entry_i16`: the same two bytes assembled as a
signed 16-bit value. -/
def nextOpcodeEntryI16 (fr : Frame) : Frame × Except StepError Int :=
  match nextOpcodeEntryU2 fr with
  | (fr2, .error e) => (fr2, .error e)
  | (fr2, .ok u) => (fr2, .ok (toSigned16 u))

/-- `Frame::calculate_offset`: read the signed 16-bit branch offset and
subtract 3 *as an `i16`* (`offset -= 3` wraps in the release profile). -/
def calculate_offset (fr : Frame) : Frame × Except StepError Int :=
  match nextOpcodeEntryI16 fr with
  | (fr2, .error e) => (fr2, .error e)
  | (fr2, .ok offset) => (fr2, .ok (wrap16 (offset - 3)))

/-! ## Step actions and outcomes (frame.rs lines 72–98 and 239–556) -/

/-- `frame.rs` `enum StepAction`.  `Utf8Info` payloads are their string
values. -/
inductive StepAction : Type
  | InvokeVirtualMethod (class_name name descriptor : String) (args : List JavaType)
  | InvokeStaticMethod (class_name name descriptor : String) (args : List JavaType)
  | InvokeSpecialMethod (class_name name descriptor : String) (args : List JavaType)
  | InitializeClass (class_name : String)
  | AllocateString (contents : String)
  | AllocateClass (class_name : String)
  | AllocateArray (count : Int)
  | ReturnValue (value : JavaType)
  | EndOfMethod
deriving DecidableEq, Repr

/-- The observable outcome of executing `Frame::step` (or one iteration of
its `while` loop): continue the loop with mutated frame and store, return
a `StepAction`, return a `StepError` (`&mut self` keeps any mutations made
so far), or abort the process (a Rust panic).  `fuelOut` only marks
exhaustion of the fuel that makes the Lean loop total. -/
inductive StepExec : Type
  | next (frame : Frame) (ds : CommonDataStore)
  | done (frame : Frame) (ds : CommonDataStore) (action : StepAction)
  | fail (frame : Frame) (ds : CommonDataStore) (error : StepError)
  | abort (message : String)
  | fuelOut (frame : Frame) (ds : CommonDataStore)
deriving DecidableEq, Repr

/-- One iteration of the `while let Some(opcode) = …` loop of
`Frame::step` (frame.rs lines 243–553), including the fall-through
`Err(CodeIndexOutOfBounds(current() - 1))` of line 555 when the code
pointer is outside the code.  Each arm mirrors the corresponding opcode
arm of the source `match`. -/
def stepIter (fr : Frame) (ds : CommonDataStore) : StepExec :=
  let pool := fr.constant_pool
  match fr.code_attribute.code.get? (intAsUsize fr.code_position) with
  | none => .fail fr ds (.CodeIndexOutOfBounds (usizeSub (intAsUsize fr.code_position) 1))
  | some b =>
    let opcode := b % 256
    let fr1 : Frame := { fr with code_position := fr.code_position + 1 }
    match opcode with
    -- iconst_0 .. iconst_5
    | 3 => .next (fr1.push (.Int 0)) ds
    | 4 => .next (fr1.push (.Int 1)) ds
    | 5 => .next (fr1.push (.Int 2)) ds
    | 6 => .next (fr1.push (.Int 3)) ds
    | 7 => .next (fr1.push (.Int 4)) ds
    | 8 => .next (fr1.push (.Int 5)) ds
    -- bipush: the u8 operand is pushed zero-extended (`entry as i32` from
    -- a `U2` that holds a byte)
    | 16 =>
      match nextOpcodeEntryU1 fr1 with
      | (fr2, .error e) => .fail fr2 ds e
      | (fr2, .ok entry) => .next (fr2.push (.Int entry)) ds
    -- ldc
    | 18 =>
      match nextOpcodeEntryU1 fr1 with
      | (fr2, .error e) => .fail fr2 ds e
      | (fr2, .ok index) =>
        match retrieve_item index pool with
        | .error e => .fail fr2 ds e
        | .ok (.StringItem contents) => .done fr2 ds (.AllocateString contents)
        | .ok (.IntegerItem bytes) => .next (fr2.push (.Int (toSigned32 (bytes % 2 ^ 32)))) ds
        | .ok item => .fail fr2 ds (.UnexpectedConstantPoolItem item.to_friendly_name)
    -- ldc2_w
    | 20 =>
      match nextOpcodeEntryU2 fr1 with
      | (fr2, .error e) => .fail fr2 ds e
      | (fr2, .ok index) =>
        match retrieve_item index pool with
        | .error e => .fail fr2 ds e
        | .ok (.LongItem high low) =>
          .next (((fr2.push (.Long (wrap64 ((high % 2 ^ 32) * 2 ^ 32 + low % 2 ^ 32))))).push .Filler) ds
        | .ok item => .fail fr2 ds (.UnexpectedConstantPoolItem item.to_friendly_name)
    -- iload_0 .. iload_2
    | 26 =>
      match JavaType.load 0 fr1.locals with
      | none => .abort "Expected vec to contain item at index"
      | some v => .next (fr1.push v) ds
    | 27 =>
      match JavaType.load 1 fr1.locals with
      | none => .abort "Expected vec to contain item at index"
      | some v => .next (fr1.push v) ds
    | 28 =>
      match JavaType.load 2 fr1.locals with
      | none => .abort "Expected vec to contain item at index"
      | some v => .next (fr1.push v) ds
    -- lload_0 / lload_2 (the first value is filler)
    | 30 =>
      match JavaType.load 1 fr1.locals with
      | none => .abort "Expected vec to contain item at index"
      | some v => .next (fr1.push v) ds
    | 32 =>
      match JavaType.load 3 fr1.locals with
      | none => .abort "Expected vec to contain item at index"
      | some v => .next (fr1.push v) ds
    -- aload_0 / aload_1
    | 42 =>
      match JavaType.load 0 fr1.locals with
      | none => .abort "Expected vec to contain item at index"
      | some v => .next (fr1.push v) ds
    | 43 =>
      match JavaType.load 1 fr1.locals with
      | none => .abort "Expected vec to contain item at index"
      | some v => .next (fr1.push v) ds
    -- iaload
    | 46 =>
      match popInt fr1.operand_stack with
      | (stack1, .error e) => .fail { fr1 with operand_stack := stack1 } ds e
      | (stack1, .ok index) =>
        match popOperand stack1 with
        | none => .abort "Operand stack was unexpectedly empty"
        | some (array_ref, stack2) =>
          match ObjectHeap.get_array ds.object_heap array_ref with
          | none => .abort "Unexpected JavaType"
          | some (.error e) => .fail { fr1 with operand_stack := stack2 } ds (.DataStore e)
          | some (.ok array) =>
            match AllocatedArray.index array index with
            | none => .abort "index out of bounds"
            | some v => .next { fr1 with operand_stack := v :: stack2 } ds
    -- istore_1 / istore_2
    | 60 =>
      match popOperand fr1.operand_stack with
      | none => .abort "Operand stack was unexpectedly empty"
      | some (v, rest) =>
        if 1 < fr1.locals.length
        then .next { fr1 with operand_stack := rest, locals := fr1.locals.set 1 v } ds
        else .abort "index out of bounds"
    | 61 =>
      match popOperand fr1.operand_stack with
      | none => .abort "Operand stack was unexpectedly empty"
      | some (v, rest) =>
        if 2 < fr1.locals.length
        then .next { fr1 with operand_stack := rest, locals := fr1.locals.set 2 v } ds
        else .abort "index out of bounds"
    -- astore_1: the source calls `Vec::insert(1, v)`, which shifts the
    -- tail and grows the vector (and aborts when the length is 0)
    | 76 =>
      match popOperand fr1.operand_stack with
      | none => .abort "Operand stack was unexpectedly empty"
      | some (v, rest) =>
        if 1 ≤ fr1.locals.length
        then .next { fr1 with operand_stack := rest, locals := fr1.locals.insertIdx 1 v } ds
        else .abort "insertion index out of bounds"
    -- iastore
    | 79 =>
      match popOperand fr1.operand_stack with
      | none => .abort "Operand stack was unexpectedly empty"
      | some (value, stack1) =>
        match popInt stack1 with
        | (stack2, .error e) => .fail { fr1 with operand_stack := stack2 } ds e
        | (stack2, .ok index) =>
          match popOperand stack2 with
          | none => .abort "Operand stack was unexpectedly empty"
          | some (array_ref, stack3) =>
            -- `get_array_mut` followed by `array[index] = value`: the
            -- mutation is written back at the resolved handle
            match ObjectHeap.resolve_pointer array_ref with
            | none => .abort "Unexpected JavaType"
            | some p =>
              match findHeap p ds.object_heap.objects with
              | none => .fail { fr1 with operand_stack := stack3 } ds
                  (.DataStore (.InvalidPointer p))
              | some (.Object _) => .fail { fr1 with operand_stack := stack3 } ds
                  (.DataStore .UnexpectedHeapType)
              | some (.Array array) =>
                match AllocatedArray.indexSet array index value with
                | none => .abort "index out of bounds"
                | some array' =>
                  .next { fr1 with operand_stack := stack3 }
                    ⟨ds.class_statics,
                     ⟨ds.object_heap.current_pointer,
                      putHeap p (.Array array') ds.object_heap.objects⟩⟩
    -- dup
    | 89 =>
      match popOperand fr1.operand_stack with
      | none => .abort "Operand stack was unexpectedly empty"
      | some (v, rest) => .next { fr1 with operand_stack := v :: v :: rest } ds
    -- iadd | isub | imul | idiv
    | 96 | 100 | 104 | 108 =>
      match popInt fr1.operand_stack with
      | (stack1, .error e) => .fail { fr1 with operand_stack := stack1 } ds e
      | (stack1, .ok left) =>
        match popInt stack1 with
        | (stack2, .error e) => .fail { fr1 with operand_stack := stack2 } ds e
        | (stack2, .ok right) =>
          if opcode = 108 ∧ right = 0 then .abort "attempt to divide by zero"
          else if opcode = 108 ∧ left = -(2 ^ 31) ∧ right = -1 then
            .abort "attempt to divide with overflow"
          else
            let result : Int :=
              if opcode = 96 then wrap32 (left + right)
              else if opcode = 100 then wrap32 (left - right)
              else if opcode = 104 then wrap32 (left * right)
              else Int.tdiv left right
            .next { fr1 with operand_stack := .Int result :: stack2 } ds
    -- ladd | lsub | lmul | ldiv
    | 97 | 101 | 105 | 109 =>
      match popLong fr1.operand_stack with
      | (stack1, .error e) => .fail { fr1 with operand_stack := stack1 } ds e
      | (stack1, .ok left) =>
        match popLong stack1 with
        | (stack2, .error e) => .fail { fr1 with operand_stack := stack2 } ds e
        | (stack2, .ok right) =>
          if opcode = 109 ∧ right = 0 then .abort "attempt to divide by zero"
          else if opcode = 109 ∧ left = -(2 ^ 63) ∧ right = -1 then
            .abort "attempt to divide with overflow"
          else
            let result : Int :=
              if opcode = 97 then wrap64 (left + right)
              else if opcode = 101 then wrap64 (left - right)
              else if opcode = 105 then wrap64 (left * right)
              else Int.tdiv left right
            .next { fr1 with operand_stack := .Filler :: .Long result :: stack2 } ds
    -- iinc
    | 132 =>
      match nextOpcodeEntryU1 fr1 with
      | (fr2, .error e) => .fail fr2 ds e
      | (fr2, .ok index) =>
        match nextOpcodeEntryU1 fr2 with
        | (fr3, .error e) => .fail fr3 ds e
        | (fr3, .ok const_value) =>
          match retrieveInt index fr3.locals with
          | .error e => .fail fr3 ds e
          | .ok current_value =>
            let updated := fr3.locals.set index (.Int (wrap32 (current_value + const_value)))
            .next { fr3 with locals := updated } ds
    -- i2b
    | 145 =>
      match popInt fr1.operand_stack with
      | (stack1, .error e) => .fail { fr1 with operand_stack := stack1 } ds e
      | (stack1, .ok int_val) =>
        .next { fr1 with operand_stack := .Byte (wrap8 int_val) :: stack1 } ds
    -- if_icmpge: the offset is read in both branches
    | 162 =>
      match popInt fr1.operand_stack with
      | (stack1, .error e) => .fail { fr1 with operand_stack := stack1 } ds e
      | (stack1, .ok value_2) =>
        match popInt stack1 with
        | (stack2, .error e) => .fail { fr1 with operand_stack := stack2 } ds e
        | (stack2, .ok value_1) =>
          match calculate_offset { fr1 with operand_stack := stack2 } with
          | (fr2, .error e) => .fail fr2 ds e
          | (fr2, .ok offset) =>
            if value_1 ≥ value_2
            then .next { fr2 with code_position := fr2.code_position + offset } ds
            else .next fr2 ds
    -- goto
    | 167 =>
      match calculate_offset fr1 with
      | (fr2, .error e) => .fail fr2 ds e
      | (fr2, .ok offset) =>
        .next { fr2 with code_position := fr2.code_position + offset } ds
    -- ireturn | areturn
    | 172 | 176 =>
      match popOperand fr1.operand_stack with
      | none => .abort "Operand stack was unexpectedly empty"
      | some (v, rest) => .done { fr1 with operand_stack := rest } ds (.ReturnValue v)
    -- return
    | 177 => .done fr1 ds .EndOfMethod
    -- getstatic | putstatic
    | 178 | 179 =>
      match nextOpcodeEntryU2 fr1 with
      | (fr2, .error e) => .fail fr2 ds e
      | (fr2, .ok index) =>
        match resolve_field_info index pool with
        | .error e => .fail fr2 ds e
        | .ok field =>
          if ¬ ds.has_class_statics field.class_name then
            .done { fr2 with code_position := fr2.code_position - 3 } ds
              (.InitializeClass field.class_name)
          else if opcode = 178 then
            match ds.get_class_static field.class_name field.name with
            | .error e => .fail fr2 ds (.DataStore e)
            | .ok field_value => .next (fr2.push field_value) ds
          else
            match popOperand fr2.operand_stack with
            | none => .abort "Operand stack was unexpectedly empty"
            | some (v, rest) =>
              match ds.set_class_static field.class_name field.name v with
              | none => .abort "Unable to find initialized class statics"
              | some ds' => .next { fr2 with operand_stack := rest } ds'
    -- getfield | putfield
    | 180 | 181 =>
      match nextOpcodeEntryU2 fr1 with
      | (fr2, .error e) => .fail fr2 ds e
      | (fr2, .ok index) =>
        match resolve_field_info index pool with
        | .error e => .fail fr2 ds e
        | .ok field =>
          if opcode = 180 then
            match popOperand fr2.operand_stack with
            | none => .abort "Operand stack was unexpectedly empty"
            | some (reference, rest) =>
              match ObjectHeap.get_field ds.object_heap reference field.name with
              | none => .abort "Unexpected JavaType"
              | some (.error e) => .fail { fr2 with operand_stack := rest } ds (.DataStore e)
              | some (.ok value) => .next { fr2 with operand_stack := value :: rest } ds
          else
            match popOperand fr2.operand_stack with
            | none => .abort "Operand stack was unexpectedly empty"
            | some (value, rest1) =>
              match popOperand rest1 with
              | none => .abort "Operand stack was unexpectedly empty"
              | some (reference, rest2) =>
                match ObjectHeap.set_field ds.object_heap reference field.name value with
                | none => .abort "Unable to find instance"
                | some heap' =>
                  .next { fr2 with operand_stack := rest2 } ⟨ds.class_statics, heap'⟩
    -- invokevirtual | invokespecial (an argument is added for `this`)
    | 182 | 183 =>
      match nextOpcodeEntryU2 fr1 with
      | (fr2, .error e) => .fail fr2 ds e
      | (fr2, .ok index) =>
        match resolve_method_info index pool with
        | .error e => .fail fr2 ds e
        | .ok method =>
          match determine_number_of_arguments method.descriptor with
          | none => .abort "Unknown descriptor character"
          | some argument_count =>
            match build_arguments (argument_count + 1) fr2.operand_stack with
            | none => .abort "Operand stack was unexpectedly empty"
            | some (args, remaining) =>
              if opcode = 182 then
                .done { fr2 with operand_stack := remaining } ds
                  (.InvokeVirtualMethod method.class_name method.name method.descriptor args)
              else
                .done { fr2 with operand_stack := remaining } ds
                  (.InvokeSpecialMethod method.class_name method.name method.descriptor args)
    -- invokestatic
    | 184 =>
      match nextOpcodeEntryU2 fr1 with
      | (fr2, .error e) => .fail fr2 ds e
      | (fr2, .ok index) =>
        match resolve_method_info index pool with
        | .error e => .fail fr2 ds e
        | .ok method =>
          match determine_number_of_arguments method.descriptor with
          | none => .abort "Unknown descriptor character"
          | some argument_count =>
            match build_static_arguments argument_count fr2.operand_stack with
            | none => .abort "Operand stack was unexpectedly empty"
            | some (args, remaining) =>
              .done { fr2 with operand_stack := remaining } ds
                (.InvokeStaticMethod method.class_name method.name method.descriptor args)
    -- new
    | 187 =>
      match nextOpcodeEntryU2 fr1 with
      | (fr2, .error e) => .fail fr2 ds e
      | (fr2, .ok index) =>
        match retrieve_class_info index pool with
        | .error e => .fail fr2 ds e
        | .ok name_index =>
          match retrieve_utf8_info name_index pool with
          | .error e => .fail fr2 ds e
          | .ok class_name => .done fr2 ds (.AllocateClass class_name)
    -- newarray (the count is popped first, then the type byte is read and
    -- ignored)
    | 188 =>
      match popInt fr1.operand_stack with
      | (stack1, .error e) => .fail { fr1 with operand_stack := stack1 } ds e
      | (stack1, .ok count) =>
        match nextOpcodeEntryU1 { fr1 with operand_stack := stack1 } with
        | (fr2, .error e) => .fail fr2 ds e
        | (fr2, .ok _) => .done fr2 ds (.AllocateArray count)
    -- arraylength
    | 190 =>
      match popOperand fr1.operand_stack with
      | none => .abort "Operand stack was unexpectedly empty"
      | some (array_ref, rest) =>
        match ObjectHeap.get_array ds.object_heap array_ref with
        | none => .abort "Unexpected JavaType"
        | some (.error e) => .fail { fr1 with operand_stack := rest } ds (.DataStore e)
        | some (.ok array) => .next { fr1 with operand_stack := .Int array.count :: rest } ds
    | _ => .fail fr1 ds (.UnknownOpcode opcode)

/-- `Frame::step`: iterate the loop body until it produces an action, an
error or an abort.  The fuel only makes the recursion well-founded; the
source loop has no bound of its own. -/
def Frame.step : Nat → Frame → CommonDataStore → StepExec
  | 0, fr, ds => .fuelOut fr ds
  | fuel + 1, fr, ds =>
    match stepIter fr ds with
    | .next fr' ds' => Frame.step fuel fr' ds'
    | result => result

/-! ## The driver's per-iteration stack checks (lib.rs lines 100–110) -/

/-- What the head of the dispatch loop decides before popping a frame. -/
inductive DispatchCheck : Type
  | finished
  | overflow
  | proceed
deriving DecidableEq, Repr

/-- The two checks at the top of every iteration of the dispatch loop in
`VirtualMachine::start`: stop when the stack is empty, abort with
`panic!("Stack overflow")` when `stack.len() > 255`, otherwise pop and
step the top frame. -/
def dispatch_check (stack : List Frame) : DispatchCheck :=
  if stack.length = 0 then .finished
  else if stack.length > 255 then .overflow
  else .proceed

/-! ## Spec-side reference definitions and test fixtures -/

/-- The spec's arity rule for descriptor argument characters, stated from
its words (§3, "Method descriptor"): each of `B C F I S Z` contributes 1,
each of `J D` contributes 2, each `L…;` contributes 1, and array tokens
`[` are passed through without contributing.  The boolean is true while
inside an `L…;` class name.  This is the claimed behaviour, to be compared
with `countArguments`. -/
def claimArityFrom : Bool → List Char → Nat
  | true, [] => 0
  | true, c :: rest =>
    if c = ';' then claimArityFrom false rest else claimArityFrom true rest
  | false, [] => 0
  | false, c :: rest =>
    if c = 'L' then claimArityFrom true rest + 1
    else if c = '[' then claimArityFrom false rest
    else if c = 'B' ∨ c = 'C' ∨ c = 'F' ∨ c = 'I' ∨ c = 'S' ∨ c = 'Z' then
      claimArityFrom false rest + 1
    else if c = 'J' ∨ c = 'D' then claimArityFrom false rest + 2
    else claimArityFrom false rest

/-- The spec's arity of an `arguments` capture. -/
def claimArity (args : List Char) : Nat := claimArityFrom false args

/-- A minimal constant pool holding one `Fieldref` (at index 0) whose
resolution yields the given class name, field name and descriptor. -/
def fieldPool (class_name field_name descriptor : String) : List ConstantPoolItem :=
  [.Fieldref 1 2, .ClassItem 3, .NameAndType 4 5,
   .Utf8 class_name, .Utf8 field_name, .Utf8 descriptor]

/-- A minimal constant pool holding one `Methodref` (at index 0) whose
resolution yields the given class name, method name and descriptor. -/
def methodPool (class_name method_name descriptor : String) : List ConstantPoolItem :=
  [.Methodref 1 2, .ClassItem 3, .NameAndType 4 5,
   .Utf8 class_name, .Utf8 method_name, .Utf8 descriptor]

/-! ## Helper lemmas -/

theorem intAsUsize_zero : intAsUsize 0 = 0 := rfl

theorem intAsUsize_coe (n : Nat) (h : n < 2 ^ 64) : intAsUsize (n : Int) = n := by
  unfold intAsUsize
  rw [Int.emod_eq_of_lt (by positivity) (by exact_mod_cast h)]
  exact Int.toNat_natCast n

theorem intAsUsize_nonneg (i : Int) (h0 : 0 ≤ i) (h : i < 2 ^ 64) :
    intAsUsize i = i.toNat := by
  unfold intAsUsize
  rw [Int.emod_eq_of_lt h0 h]

theorem intAsUsize_neg (i : Int) (h1 : -(2 ^ 31) ≤ i) (h2 : i < 0) :
    2 ^ 64 - 2 ^ 31 ≤ intAsUsize i := by
  unfold intAsUsize
  have he : i % (2 ^ 64 : Int) = i + 2 ^ 64 := by
    have := Int.add_mul_emod_self_left (a := i) (b := 2 ^ 64) (c := 1)
    rw [mul_one] at this
    rw [← this, Int.emod_eq_of_lt (by omega) (by omega)]
  rw [he]
  omega

theorem usizeSub_one (a : Nat) (h1 : 1 ≤ a) (h2 : a < 2 ^ 64) :
    usizeSub a 1 = a - 1 := by
  unfold usizeSub
  rw [Int.emod_eq_of_lt (by omega) (by push_cast; omega)]
  omega

theorem wrap16_eq_self (z : Int) (h1 : -(2 ^ 15) ≤ z) (h2 : z < 2 ^ 15) :
    wrap16 z = z := by
  unfold wrap16
  rw [Int.emod_eq_of_lt (by omega) (by omega)]
  omega

theorem toSigned16_lt (n : Nat) (h : n < 2 ^ 16) : toSigned16 n < 2 ^ 15 := by
  unfold toSigned16
  split <;> omega

theorem build_static_arguments_take_drop (n : Nat) (stack : List JavaType)
    (h : n ≤ stack.length) :
    build_static_arguments n stack = some (stack.take n, stack.drop n) := by
  induction n generalizing stack with
  | zero => simp [build_static_arguments]
  | succ m ih =>
    cases stack with
    | nil => simp at h
    | cons v rest =>
      simp only [build_static_arguments, List.take_succ_cons, List.drop_succ_cons]
      rw [ih rest (by simpa using h)]

theorem findAssoc_putAssoc {α : Type} (k : String) (v : α)
    (m : List (String × α)) : findAssoc k (putAssoc k v m) = some v := by
  induction m with
  | nil => simp [putAssoc, findAssoc]
  | cons kv rest ih =>
    obtain ⟨k', v'⟩ := kv
    by_cases hk : k' = k
    · simp [putAssoc, findAssoc, hk]
    · simp [putAssoc, findAssoc, hk, ih]

theorem putAssoc_putAssoc {α : Type} (k : String) (v w : α)
    (m : List (String × α)) :
    putAssoc k v (putAssoc k w m) = putAssoc k v m := by
  induction m with
  | nil => simp [putAssoc]
  | cons kv rest ih =>
    obtain ⟨k', v'⟩ := kv
    by_cases hk : k' = k
    · simp [putAssoc, hk]
    · simp [putAssoc, hk, ih]

theorem countArgumentsFrom_claimArityFrom (l : List Char) :
    ∀ (inClassName : Bool) (n : Nat),
      countArgumentsFrom inClassName l = some n → n = claimArityFrom inClassName l := by
  induction l with
  | nil =>
    intro b n h
    cases b <;> simp_all [countArgumentsFrom, claimArityFrom]
  | cons c rest ih =>
    intro b n h
    cases b with
    | true =>
      simp only [countArgumentsFrom, claimArityFrom] at h ⊢
      by_cases hc : c = ';'
      · simp only [if_pos hc] at h ⊢
        exact ih false n h
      · simp only [if_neg hc] at h ⊢
        exact ih true n h
    | false =>
      simp only [countArgumentsFrom, claimArityFrom] at h ⊢
      by_cases hL : c = 'L'
      · simp only [hL, if_true] at h ⊢
        cases hrec : countArgumentsFrom true rest with
        | none => rw [hrec] at h; exact absurd h (by simp)
        | some m =>
          rw [hrec] at h
          simp only [Option.some.injEq] at h
          have := ih true m hrec
          simp [if_pos rfl, ← h, this]
      · have hnotbr : ¬ c = '[' := by
          intro hbr
          rw [if_neg hL] at h
          simp only [hbr] at h
          simp [show ¬ ('[' = 'B' ∨ '[' = 'C' ∨ '[' = 'F' ∨ '[' = 'I' ∨ '[' = 'S' ∨
            '[' = 'Z') from by decide, show ¬ ('[' = 'J' ∨ '[' = 'D') from by decide] at h
        by_cases h1 : c = 'B' ∨ c = 'C' ∨ c = 'F' ∨ c = 'I' ∨ c = 'S' ∨ c = 'Z'
        · simp only [if_neg hL, if_pos h1] at h
          cases hrec : countArgumentsFrom false rest with
          | none => rw [hrec] at h; exact absurd h (by simp)
          | some m =>
            rw [hrec] at h
            simp only [Option.some.injEq] at h
            have := ih false m hrec
            simp [if_neg hL, if_neg hnotbr, if_pos h1, ← h, this]
        · by_cases h2 : c = 'J' ∨ c = 'D'
          · simp only [if_neg hL, if_neg h1, if_pos h2] at h
            cases hrec : countArgumentsFrom false rest with
            | none => rw [hrec] at h; exact absurd h (by simp)
            | some m =>
              rw [hrec] at h
              simp only [Option.some.injEq] at h
              have := ih false m hrec
              simp [if_neg hL, if_neg hnotbr, if_neg h1, if_pos h2, ← h, this]
          · simp [if_neg hL, if_neg h1, if_neg h2] at h

/-! ## Claim C2 — end of code is an error, not `EndOfMethod` -/

/-- C2, counterexample.  A frame of a void method (code `[iconst_0]`, no
return byte) whose code pointer has reached `code.len()`: `step` returns
the error `CodeIndexOutOfBounds(code.len() - 1)`, not the `EndOfMethod`
action the claim promises. -/
theorem c2_counterexample :
    Frame.step 1 ⟨[], ⟨0, 0, [3]⟩, 1, [], []⟩ CommonDataStore.new
      = .fail ⟨[], ⟨0, 0, [3]⟩, 1, [], []⟩ CommonDataStore.new (.CodeIndexOutOfBounds 0)
    ∧ Frame.step 1 ⟨[], ⟨0, 0, [3]⟩, 1, [], []⟩ CommonDataStore.new
      ≠ .done ⟨[], ⟨0, 0, [3]⟩, 1, [], []⟩ CommonDataStore.new .EndOfMethod := by
  refine ⟨by decide, by decide⟩

/-- C2, amended: when `step` is invoked on a frame whose code pointer has
reached `code.len()` (with at least one code byte), the `while let` loop
body never runs and `step` returns the error
`CodeIndexOutOfBounds(code.len() - 1)`; `EndOfMethod` is produced only by
the `return` opcode (177). -/
theorem step_end_of_code_error (fuel : Nat) (fr : Frame) (ds : CommonDataStore)
    (hpos : fr.code_position = (fr.code_attribute.code.length : Int))
    (hlen : 1 ≤ fr.code_attribute.code.length)
    (hbound : fr.code_attribute.code.length < 2 ^ 64) :
    Frame.step (fuel + 1) fr ds =
      .fail fr ds (.CodeIndexOutOfBounds (fr.code_attribute.code.length - 1)) := by
  have h1 : intAsUsize fr.code_position = fr.code_attribute.code.length := by
    rw [hpos, intAsUsize_coe _ hbound]
  have h2 : fr.code_attribute.code.get? fr.code_attribute.code.length = none :=
    List.get?_eq_none.mpr le_rfl
  simp only [Frame.step, stepIter, h1, h2, usizeSub_one _ hlen hbound]

/-- C2 witness: the amended theorem at the concrete end-of-code frame. -/
theorem step_end_of_code_error_witness :
    Frame.step 1 ⟨[], ⟨0, 0, [4, 177]⟩, 2, [JavaType.Int 1], []⟩ CommonDataStore.new
      = .fail ⟨[], ⟨0, 0, [4, 177]⟩, 2, [JavaType.Int 1], []⟩ CommonDataStore.new
          (.CodeIndexOutOfBounds 1) :=
  step_end_of_code_error 0 ⟨[], ⟨0, 0, [4, 177]⟩, 2, [JavaType.Int 1], []⟩
    CommonDataStore.new (by decide) (by decide) (by decide)

/-! ## Claim C3 — `astore_1` grows the locals vector (code bug) -/

/-- C3: the claim (and spec invariant 1) is right and the code is wrong.
`Frame::new` does establish `locals.len() == max_locals` (here 2), and
`istore`-style opcodes preserve it, but `astore_1` is implemented as
`self.variables.insert(1, …)` — `Vec::insert` — which *grows* the locals
vector to length 3 and shifts slot 1's old contents to slot 2, instead of
overwriting slot 1.  Failing input: a method with `max_locals = 2` and
code `[iconst_1, astore_1, return]` (bytes 4, 76, 177). -/
theorem astore1_insert_grows_locals :
    Frame.new [] ⟨2, 2, [4, 76, 177]⟩ []
      = some ⟨[], ⟨2, 2, [4, 76, 177]⟩, 0, [], [JavaType.Empty, JavaType.Empty]⟩
    ∧ [JavaType.Empty, JavaType.Empty].length = 2
    ∧ stepIter ⟨[], ⟨2, 2, [4, 76, 177]⟩, 0, [], [JavaType.Empty, JavaType.Empty]⟩
          CommonDataStore.new
      = .next ⟨[], ⟨2, 2, [4, 76, 177]⟩, 1, [JavaType.Int 1],
          [JavaType.Empty, JavaType.Empty]⟩ CommonDataStore.new
    ∧ stepIter ⟨[], ⟨2, 2, [4, 76, 177]⟩, 1, [JavaType.Int 1],
          [JavaType.Empty, JavaType.Empty]⟩ CommonDataStore.new
      = .next ⟨[], ⟨2, 2, [4, 76, 177]⟩, 2, [],
          [JavaType.Empty, JavaType.Int 1, JavaType.Empty]⟩ CommonDataStore.new
    ∧ [JavaType.Empty, JavaType.Int 1, JavaType.Empty].length = 3 := by
  refine ⟨by decide, by decide, by decide, by decide, by decide⟩

/-! ## Claim C5 — the frame stack bound is 255, not 256 -/

/-- C5, counterexample.  A stack of exactly 256 frames: the dispatch-loop
check aborts with the stack overflow, whereas the claim says exactly 256
frames continue executing (it puts the bound at 256, the code at 255:
`stack.len() > 255`). -/
theorem c5_counterexample :
    dispatch_check (List.replicate 256 ⟨[], ⟨0, 0, []⟩, 0, [], []⟩) = .overflow
    ∧ dispatch_check (List.replicate 256 ⟨[], ⟨0, 0, []⟩, 0, [], []⟩) ≠ .proceed := by
  have h : dispatch_check (List.replicate 256 ⟨[], ⟨0, 0, []⟩, 0, [], []⟩) = .overflow := by
    unfold dispatch_check
    rw [List.length_replicate]
    norm_num
  exact ⟨h, by rw [h]; decide⟩

/-- C5, amended: the frame stack is bounded at 255 — at every dispatch
iteration the driver aborts fatally with "Stack overflow" if and only if
the frame-stack depth exceeds 255, and a non-empty stack of at most 255
frames (in particular exactly 255) continues executing. -/
theorem stack_overflow_threshold (stack : List Frame) :
    (dispatch_check stack = .overflow ↔ 255 < stack.length)
    ∧ (dispatch_check stack = .proceed ↔ 0 < stack.length ∧ stack.length ≤ 255) := by
  by_cases h0 : stack.length = 0
  · have h : dispatch_check stack = .finished := by
      unfold dispatch_check
      rw [if_pos h0]
    rw [h]
    refine ⟨⟨fun hc => absurd hc (by decide), fun hc => by omega⟩,
            ⟨fun hc => absurd hc (by decide), fun hc => by omega⟩⟩
  · by_cases h2 : 255 < stack.length
    · have h : dispatch_check stack = .overflow := by
        unfold dispatch_check
        rw [if_neg h0, if_pos h2]
      rw [h]
      refine ⟨by simp [h2], ⟨fun hc => absurd hc (by decide), fun hc => by omega⟩⟩
    · have h : dispatch_check stack = .proceed := by
        unfold dispatch_check
        rw [if_neg h0, if_neg h2]
      rw [h]
      refine ⟨⟨fun hc => absurd hc (by decide), fun hc => by omega⟩, by simp; omega⟩

/-! ## Claim C9 — `register_class` overwrites previously stored statics -/

/-- C9, counterexample.  Register class `A`, store static field `f = 7`
(both succeed), then invoke `register_class("A")` again: the stored value
is gone (`StaticFieldNotFound`), so re-registration does *not* leave the
class-static table unchanged as the claim states. -/
theorem c9_counterexample :
    (CommonDataStore.new.register_class "A").set_class_static "A" "f" (JavaType.Int 7)
      = some ⟨[("A", ⟨[("f", JavaType.Int 7)]⟩)], ⟨0, []⟩⟩
    ∧ (⟨[("A", ⟨[("f", JavaType.Int 7)]⟩)], ⟨0, []⟩⟩ : CommonDataStore).get_class_static
        "A" "f" = .ok (JavaType.Int 7)
    ∧ ((⟨[("A", ⟨[("f", JavaType.Int 7)]⟩)], ⟨0, []⟩⟩ : CommonDataStore).register_class
        "A").get_class_static "A" "f" = .error (.StaticFieldNotFound "f") := by
  refine ⟨by decide, by decide, by decide⟩

/-- C9, amended: `register_class(name)` unconditionally maps `name` to a
fresh empty statics map.  It is idempotent only in the absolute sense that
two consecutive calls equal one; invoking it for a class already present
resets the entry, so any static field stored earlier is no longer found
(rather than being preserved). -/
theorem register_class_resets_statics (ds : CommonDataStore) (name field : String) :
    (ds.register_class name).register_class name = ds.register_class name
    ∧ (ds.register_class name).get_class_static name field
        = .error (.StaticFieldNotFound field)
    ∧ (ds.register_class name).has_class_statics name = true := by
  refine ⟨?_, ?_, ?_⟩
  · unfold CommonDataStore.register_class
    simp [putAssoc_putAssoc]
  · unfold CommonDataStore.register_class CommonDataStore.get_class_static
    simp [findAssoc_putAssoc, ClassStaticInfo.new, findAssoc]
  · unfold CommonDataStore.register_class CommonDataStore.has_class_statics
    simp [findAssoc_putAssoc]

/-! ## Claim C6 — getstatic/putstatic rewind on an uninitialized class -/

/-- C6: when `getstatic` (178) or `putstatic` (179) resolves a field whose
owning class has no entry in the class-static table, the step returns
`InitializeClass` with the owning class name and the returned frame *is*
the input frame — the code pointer has been rewound by 3 to the opcode
byte, and the operand stack, locals and data store are unchanged — so
re-entering `step` re-executes the triggering opcode. -/
theorem getstatic_putstatic_uninitialized_rewinds
    (class_name field_name descriptor : String) (stack lv : List JavaType)
    (ml ms : Nat) (ds : CommonDataStore)
    (h : ds.has_class_statics class_name = false) :
    stepIter ⟨fieldPool class_name field_name descriptor, ⟨ml, ms, [178, 0, 0]⟩,
        0, stack, lv⟩ ds
      = .done ⟨fieldPool class_name field_name descriptor, ⟨ml, ms, [178, 0, 0]⟩,
          0, stack, lv⟩ ds (.InitializeClass class_name)
    ∧ stepIter ⟨fieldPool class_name field_name descriptor, ⟨ml, ms, [179, 0, 0]⟩,
        0, stack, lv⟩ ds
      = .done ⟨fieldPool class_name field_name descriptor, ⟨ml, ms, [179, 0, 0]⟩,
          0, stack, lv⟩ ds (.InitializeClass class_name) := by
  constructor <;>
    simp [stepIter, fieldPool, nextOpcodeEntryU2, nextOpcodeEntryU1, intAsUsize,
      resolve_field_info, retrieve_field_info, retrieve_class_info,
      retrieve_name_and_type_info, retrieve_utf8_info, retrieve_item,
      bind, Except.bind, pure, Except.pure, Functor.map, Except.map, List.get?, h]

/-- C6 witness: the theorem at concrete inputs (class `A`, field `f` of
descriptor `I`, a one-value stack, the empty data store, both opcodes). -/
theorem getstatic_putstatic_uninitialized_rewinds_witness :
    stepIter ⟨fieldPool "A" "f" "I", ⟨2, 2, [178, 0, 0]⟩,
        0, [JavaType.Int 5], [JavaType.Empty]⟩ CommonDataStore.new
      = .done ⟨fieldPool "A" "f" "I", ⟨2, 2, [178, 0, 0]⟩,
          0, [JavaType.Int 5], [JavaType.Empty]⟩ CommonDataStore.new
          (.InitializeClass "A")
    ∧ stepIter ⟨fieldPool "A" "f" "I", ⟨2, 2, [179, 0, 0]⟩,
        0, [JavaType.Int 5], [JavaType.Empty]⟩ CommonDataStore.new
      = .done ⟨fieldPool "A" "f" "I", ⟨2, 2, [179, 0, 0]⟩,
          0, [JavaType.Int 5], [JavaType.Empty]⟩ CommonDataStore.new
          (.InitializeClass "A") :=
  getstatic_putstatic_uninitialized_rewinds "A" "f" "I" [JavaType.Int 5]
    [JavaType.Empty] 2 2 CommonDataStore.new (by decide)

/-! ## Claim C7 — `[` aborts descriptor-arity computation -/

/-- C7, counterexample.  The descriptor `([I)V` has one array argument
`[I`; the claim says the arity is a defined 1 (the `[` passed through, the
`I` counting 1, as `claimArity` computes), but
`determine_number_of_arguments` hits
`panic!("Unknown descriptor character: [")` — there is no `[` arm in its
`match` — modelled as `none`. -/
theorem c7_counterexample :
    determine_number_of_arguments "([I)V" = none
    ∧ descriptorArgumentsCapture "([I)V" = some ['[', 'I']
    ∧ claimArity ['[', 'I'] = 1 := by
  refine ⟨by decide, by decide, by decide⟩

/-- C7, amended: whenever `determine_number_of_arguments` returns an arity
(does not abort), that arity follows the claimed contribution rule —
1 for each of `B C F I S Z`, 2 for each of `J D`, 1 for each `L…;` token —
over the regex's `arguments` capture (0 when the regex does not match);
but an array token `[` at argument position is *not* passed through: it
aborts the computation instead of contributing nothing. -/
theorem determine_arguments_matches_claim_arity (descriptor : String) (n : Nat)
    (h : determine_number_of_arguments descriptor = some n) :
    n = (match descriptorArgumentsCapture descriptor with
         | some args => claimArity args
         | none => 0) := by
  unfold determine_number_of_arguments at h
  cases hc : descriptorArgumentsCapture descriptor with
  | none => rw [hc] at h; simp at h; simp [h]
  | some args =>
    rw [hc] at h
    exact countArgumentsFrom_claimArityFrom args false n h

/-- C7 witness: the amended theorem at the concrete descriptor
`(IJLjava/lang/String;)V`, of arity 1 + 2 + 1 = 4. -/
theorem determine_arguments_matches_claim_arity_witness :
    (4 : Nat) = (match descriptorArgumentsCapture "(IJLjava/lang/String;)V" with
                 | some args => claimArity args
                 | none => 0) :=
  determine_arguments_matches_claim_arity "(IJLjava/lang/String;)V" 4 (by decide)

/-! ## Claim C1 — invokestatic argument order -/

/-- C1, counterexample.  `invokestatic` of `(II)V` (two argument slots)
with operand stack top `Int 2` above `Int 1`: `build_static_arguments`
produces `args = [Int 2, Int 1]` — `args[0]` is the value that was on
*top* of the stack — and not `[Int 1, Int 2]` as the claim's
bottom-to-top order requires (`args[0]` the deepest popped value). -/
theorem c1_counterexample :
    stepIter ⟨methodPool "C" "m" "(II)V", ⟨0, 0, [184, 0, 0]⟩, 0,
        [JavaType.Int 2, JavaType.Int 1], []⟩ CommonDataStore.new
      = .done ⟨methodPool "C" "m" "(II)V", ⟨0, 0, [184, 0, 0]⟩, 3, [], []⟩
          CommonDataStore.new
          (.InvokeStaticMethod "C" "m" "(II)V" [JavaType.Int 2, JavaType.Int 1])
    ∧ stepIter ⟨methodPool "C" "m" "(II)V", ⟨0, 0, [184, 0, 0]⟩, 0,
        [JavaType.Int 2, JavaType.Int 1], []⟩ CommonDataStore.new
      ≠ .done ⟨methodPool "C" "m" "(II)V", ⟨0, 0, [184, 0, 0]⟩, 3, [], []⟩
          CommonDataStore.new
          (.InvokeStaticMethod "C" "m" "(II)V" [JavaType.Int 1, JavaType.Int 2]) := by
  refine ⟨by decide, by decide⟩

/-- C1, amended: for an `invokestatic` whose resolved descriptor has `n`
argument slots (and at least `n` values on the operand stack), `step` pops
`n` values and returns `InvokeStaticMethod` whose `args` vector lists them
in *pop order* — `args[0]` is the value that was on top of the operand
stack and `args[n-1]` the deepest of the popped values (the reverse of
the JVM's locals layout; `build_static_arguments` pushes to the back
where `build_arguments` inserts at the front). -/
theorem invokestatic_args_pop_order (class_name method_name descriptor : String)
    (stack lv : List JavaType) (ml ms : Nat) (ds : CommonDataStore) (n : Nat)
    (hdet : determine_number_of_arguments descriptor = some n)
    (hn : n ≤ stack.length) :
    stepIter ⟨methodPool class_name method_name descriptor, ⟨ml, ms, [184, 0, 0]⟩,
        0, stack, lv⟩ ds
      = .done ⟨methodPool class_name method_name descriptor, ⟨ml, ms, [184, 0, 0]⟩,
          3, stack.drop n, lv⟩ ds
          (.InvokeStaticMethod class_name method_name descriptor (stack.take n)) := by
  simp [stepIter, methodPool, nextOpcodeEntryU2, nextOpcodeEntryU1, intAsUsize,
    resolve_method_info, retrieve_method_info, retrieve_class_info,
    retrieve_name_and_type_info, retrieve_utf8_info, retrieve_item,
    bind, Except.bind, pure, Except.pure, Functor.map, Except.map, List.get?,
    hdet, build_static_arguments_take_drop n stack hn]

/-- C1 witness: the amended theorem at descriptor `(II)V` (n = 2) and a
three-value stack. -/
theorem invokestatic_args_pop_order_witness :
    stepIter ⟨methodPool "C" "m" "(II)V", ⟨0, 0, [184, 0, 0]⟩, 0,
        [JavaType.Int 9, JavaType.Int 8, JavaType.Int 7], []⟩ CommonDataStore.new
      = .done ⟨methodPool "C" "m" "(II)V", ⟨0, 0, [184, 0, 0]⟩, 3,
          List.drop 2 [JavaType.Int 9, JavaType.Int 8, JavaType.Int 7], []⟩
          CommonDataStore.new
          (.InvokeStaticMethod "C" "m" "(II)V"
            (List.take 2 [JavaType.Int 9, JavaType.Int 8, JavaType.Int 7])) :=
  invokestatic_args_pop_order "C" "m" "(II)V"
    [JavaType.Int 9, JavaType.Int 8, JavaType.Int 7] [] 0 0 CommonDataStore.new 2
    (by decide) (by decide)

/-! ## Claim C8 — if_icmpge -/

/-- C8, counterexample.  `if_icmpge` with offset bytes `0x80 0x00` (the
i16 offset −32768) and v1 = 1 ≥ v2 = 0: `offset -= 3` wraps in `i16`
(−32771 → 32765), so the taken branch lands at code position
3 + 32765 = 32768, not at 3 + (−32771) = −32768 as the claim's exact
"adjusts by offset−3" requires. -/
theorem c8_counterexample :
    stepIter ⟨[], ⟨0, 0, [162, 128, 0]⟩, 0, [JavaType.Int 0, JavaType.Int 1], []⟩
        CommonDataStore.new
      = .next ⟨[], ⟨0, 0, [162, 128, 0]⟩, 32768, [], []⟩ CommonDataStore.new
    ∧ stepIter ⟨[], ⟨0, 0, [162, 128, 0]⟩, 0, [JavaType.Int 0, JavaType.Int 1], []⟩
        CommonDataStore.new
      ≠ .next ⟨[], ⟨0, 0, [162, 128, 0]⟩, -32768, [], []⟩ CommonDataStore.new := by
  refine ⟨by decide, by decide⟩

/-- C8, amended: `if_icmpge` pops v2 then v1 and reads the signed 16-bit
big-endian offset in both branches, so its operand-stack effect is
identical whether or not it branches; when v1 ≥ v2 it adjusts the code
pointer (from the position after the offset bytes) by the *16-bit wrap*
of offset−3 — equal to offset−3 for every offset ≥ −32765 — and when
v1 < v2 it leaves the code pointer at the next instruction. -/
theorem if_icmpge_semantics :
    (∀ (b1 b2 : Nat) (v1 v2 : Int) (rest lv : List JavaType) (ds : CommonDataStore),
      stepIter ⟨[], ⟨0, 0, [162, b1, b2]⟩, 0, .Int v2 :: .Int v1 :: rest, lv⟩ ds
        = if v1 ≥ v2
          then .next ⟨[], ⟨0, 0, [162, b1, b2]⟩,
              3 + wrap16 (toSigned16 (b1 % 256 * 256 + b2 % 256) - 3), rest, lv⟩ ds
          else .next ⟨[], ⟨0, 0, [162, b1, b2]⟩, 3, rest, lv⟩ ds)
    ∧ (∀ u : Nat, u < 2 ^ 16 → -32765 ≤ toSigned16 u →
        wrap16 (toSigned16 u - 3) = toSigned16 u - 3) := by
  constructor
  · intro b1 b2 v1 v2 rest lv ds
    by_cases hc : v1 ≥ v2 <;>
      simp [stepIter, popInt, calculate_offset, nextOpcodeEntryI16, nextOpcodeEntryU2,
        nextOpcodeEntryU1, intAsUsize, List.get?, hc]
  · intro u hu hge
    have hlt := toSigned16_lt u hu
    exact wrap16_eq_self _ (by omega) (by omega)

/-- C8 witness: the theorem at offset bytes `0x00 0x0a` (offset 10),
values v1 = 1, v2 = 0 (branch taken), and at u = 10 for the wrap
identity. -/
theorem if_icmpge_semantics_witness :
    (stepIter ⟨[], ⟨0, 0, [162, 0, 10]⟩, 0, [JavaType.Int 0, JavaType.Int 1], []⟩
        CommonDataStore.new
      = if (1 : Int) ≥ 0
        then .next ⟨[], ⟨0, 0, [162, 0, 10]⟩,
            3 + wrap16 (toSigned16 (0 % 256 * 256 + 10 % 256) - 3), [], []⟩
            CommonDataStore.new
        else .next ⟨[], ⟨0, 0, [162, 0, 10]⟩, 3, [], []⟩ CommonDataStore.new)
    ∧ wrap16 (toSigned16 10 - 3) = toSigned16 10 - 3 :=
  ⟨if_icmpge_semantics.1 0 10 1 0 [] [] CommonDataStore.new,
   if_icmpge_semantics.2 10 (by decide) (by decide)⟩

/-! ## Claim C4 — arithmetic opcodes -/

/-- C4, counterexample.  `idiv` with dividend `−2^31` (stack top) and
divisor `−1`: the quotient overflows `i32` and Rust aborts the process in
every build profile ("attempt to divide with overflow") instead of
pushing the two's-complement-wrapped result `Int(−2^31)` that the claim's
wrap-around semantics requires. -/
theorem c4_counterexample :
    stepIter ⟨[], ⟨0, 0, [108]⟩, 0,
        [JavaType.Int (-2147483648), JavaType.Int (-1)], []⟩ CommonDataStore.new
      = .abort "attempt to divide with overflow"
    ∧ stepIter ⟨[], ⟨0, 0, [108]⟩, 0,
        [JavaType.Int (-2147483648), JavaType.Int (-1)], []⟩ CommonDataStore.new
      ≠ .next ⟨[], ⟨0, 0, [108]⟩, 1, [JavaType.Int (-2147483648)], []⟩
          CommonDataStore.new := by
  refine ⟨by decide, by decide⟩

/-- C4, amended: `iadd`/`isub`/`imul` (and `ladd`/`lsub`/`lmul`) pop two
`Int` (`Long`) values and push the operation's result with
two's-complement wrap-around on 32 (64) bits; `idiv`/`ldiv` push the
quotient truncated toward zero, and the step aborts fatally when the
divisor (the second value popped) is zero — but also when the division
itself overflows (`MIN` divided by −1), where the claim's wrap-around
semantics would push `Int(MIN)`.  The first value popped (the old stack
top) is the left operand of the Rust expression. -/
theorem arithmetic_opcode_semantics :
    (∀ (a b : Int) (rest lv : List JavaType) (ds : CommonDataStore),
      stepIter ⟨[], ⟨0, 0, [96]⟩, 0, .Int a :: .Int b :: rest, lv⟩ ds
        = .next ⟨[], ⟨0, 0, [96]⟩, 1, .Int (wrap32 (a + b)) :: rest, lv⟩ ds)
    ∧ (∀ (a b : Int) (rest lv : List JavaType) (ds : CommonDataStore),
      stepIter ⟨[], ⟨0, 0, [100]⟩, 0, .Int a :: .Int b :: rest, lv⟩ ds
        = .next ⟨[], ⟨0, 0, [100]⟩, 1, .Int (wrap32 (a - b)) :: rest, lv⟩ ds)
    ∧ (∀ (a b : Int) (rest lv : List JavaType) (ds : CommonDataStore),
      stepIter ⟨[], ⟨0, 0, [104]⟩, 0, .Int a :: .Int b :: rest, lv⟩ ds
        = .next ⟨[], ⟨0, 0, [104]⟩, 1, .Int (wrap32 (a * b)) :: rest, lv⟩ ds)
    ∧ (∀ (a b : Int) (rest lv : List JavaType) (ds : CommonDataStore),
      b ≠ 0 → ¬(a = -(2 ^ 31) ∧ b = -1) →
      stepIter ⟨[], ⟨0, 0, [108]⟩, 0, .Int a :: .Int b :: rest, lv⟩ ds
        = .next ⟨[], ⟨0, 0, [108]⟩, 1, .Int (Int.tdiv a b) :: rest, lv⟩ ds)
    ∧ (∀ (a : Int) (rest lv : List JavaType) (ds : CommonDataStore),
      stepIter ⟨[], ⟨0, 0, [108]⟩, 0, .Int a :: .Int 0 :: rest, lv⟩ ds
        = .abort "attempt to divide by zero")
    ∧ (∀ (rest lv : List JavaType) (ds : CommonDataStore),
      stepIter ⟨[], ⟨0, 0, [108]⟩, 0, .Int (-(2 ^ 31)) :: .Int (-1) :: rest, lv⟩ ds
        = .abort "attempt to divide with overflow")
    ∧ (∀ (a b : Int) (rest lv : List JavaType) (ds : CommonDataStore),
      stepIter ⟨[], ⟨0, 0, [97]⟩, 0, .Long a :: .Long b :: rest, lv⟩ ds
        = .next ⟨[], ⟨0, 0, [97]⟩, 1, .Filler :: .Long (wrap64 (a + b)) :: rest, lv⟩ ds)
    ∧ (∀ (a b : Int) (rest lv : List JavaType) (ds : CommonDataStore),
      stepIter ⟨[], ⟨0, 0, [101]⟩, 0, .Long a :: .Long b :: rest, lv⟩ ds
        = .next ⟨[], ⟨0, 0, [101]⟩, 1, .Filler :: .Long (wrap64 (a - b)) :: rest, lv⟩ ds)
    ∧ (∀ (a b : Int) (rest lv : List JavaType) (ds : CommonDataStore),
      stepIter ⟨[], ⟨0, 0, [105]⟩, 0, .Long a :: .Long b :: rest, lv⟩ ds
        = .next ⟨[], ⟨0, 0, [105]⟩, 1, .Filler :: .Long (wrap64 (a * b)) :: rest, lv⟩ ds)
    ∧ (∀ (a b : Int) (rest lv : List JavaType) (ds : CommonDataStore),
      b ≠ 0 → ¬(a = -(2 ^ 63) ∧ b = -1) →
      stepIter ⟨[], ⟨0, 0, [109]⟩, 0, .Long a :: .Long b :: rest, lv⟩ ds
        = .next ⟨[], ⟨0, 0, [109]⟩, 1, .Filler :: .Long (Int.tdiv a b) :: rest, lv⟩ ds)
    ∧ (∀ (a : Int) (rest lv : List JavaType) (ds : CommonDataStore),
      stepIter ⟨[], ⟨0, 0, [109]⟩, 0, .Long a :: .Long 0 :: rest, lv⟩ ds
        = .abort "attempt to divide by zero")
    ∧ (∀ (rest lv : List JavaType) (ds : CommonDataStore),
      stepIter ⟨[], ⟨0, 0, [109]⟩, 0, .Long (-(2 ^ 63)) :: .Long (-1) :: rest, lv⟩ ds
        = .abort "attempt to divide with overflow") := by
  refine ⟨?_, ?_, ?_, ?_, ?_, ?_, ?_, ?_, ?_, ?_, ?_, ?_⟩ <;>
    · intros
      simp [stepIter, popInt, popLong, intAsUsize, List.get?, *]
      try omega

/-- C4 witness: the amended theorem at concrete operands: 5 + 6, and
7 / 2 (a nonzero, non-overflowing division). -/
theorem arithmetic_opcode_semantics_witness :
    (stepIter ⟨[], ⟨0, 0, [96]⟩, 0, [JavaType.Int 5, JavaType.Int 6], []⟩
        CommonDataStore.new
      = .next ⟨[], ⟨0, 0, [96]⟩, 1, [JavaType.Int (wrap32 (5 + 6))], []⟩
          CommonDataStore.new)
    ∧ (stepIter ⟨[], ⟨0, 0, [108]⟩, 0, [JavaType.Int 7, JavaType.Int 2], []⟩
        CommonDataStore.new
      = .next ⟨[], ⟨0, 0, [108]⟩, 1, [JavaType.Int (Int.tdiv 7 2)], []⟩
          CommonDataStore.new) :=
  ⟨arithmetic_opcode_semantics.1 5 6 [] [] CommonDataStore.new,
   arithmetic_opcode_semantics.2.2.2.1 7 2 [] [] CommonDataStore.new
     (by decide) (by decide)⟩

/-! ## Claim C10 — iaload/iastore index bounds -/

/-- C10: `iaload` (46) and `iastore` (79) access the array's element
vector at the popped `Int` index cast to `usize`.  For a valid array
reference (handle `p` mapping to an array whose store has `count`
elements, `0 ≤ count < 2^31`) and any `i32` index: an index in
`[0, count)` makes the read push the element (the write update the store
in place), while *every* index outside `[0, count)` — negative indices
becoming huge `usize` values — aborts the process (the `Vec` indexing
panic behind `Index`/`IndexMut for AllocatedArray`), and is never
surfaced as a `StepError`/`DataStoreError`. -/
theorem array_index_bounds (cs : List (String × ClassStaticInfo)) (cp p : Nat)
    (objs : List (Nat × HeapAllocation)) (arr : AllocatedArray) (i : Int)
    (v0 : JavaType) (rest lv : List JavaType)
    (hfind : findHeap p objs = some (.Array arr))
    (hlen : arr.store.length = arr.count.toNat)
    (hcnt0 : 0 ≤ arr.count) (hcnt : arr.count < 2 ^ 31)
    (hlo : -(2 ^ 31) ≤ i) (hhi : i < 2 ^ 31) :
    (0 ≤ i → i < arr.count →
      ∃ v, arr.store.get? i.toNat = some v ∧
        stepIter ⟨[], ⟨0, 0, [46]⟩, 0, .Int i :: .Reference p :: rest, lv⟩
            ⟨cs, ⟨cp, objs⟩⟩
          = .next ⟨[], ⟨0, 0, [46]⟩, 1, v :: rest, lv⟩ ⟨cs, ⟨cp, objs⟩⟩)
    ∧ (i < 0 ∨ arr.count ≤ i →
      stepIter ⟨[], ⟨0, 0, [46]⟩, 0, .Int i :: .Reference p :: rest, lv⟩
          ⟨cs, ⟨cp, objs⟩⟩
        = .abort "index out of bounds")
    ∧ (0 ≤ i → i < arr.count →
      stepIter ⟨[], ⟨0, 0, [79]⟩, 0, v0 :: .Int i :: .Reference p :: rest, lv⟩
          ⟨cs, ⟨cp, objs⟩⟩
        = .next ⟨[], ⟨0, 0, [79]⟩, 1, rest, lv⟩
            ⟨cs, ⟨cp, putHeap p (.Array ⟨arr.count, arr.store.set i.toNat v0⟩) objs⟩⟩)
    ∧ (i < 0 ∨ arr.count ≤ i →
      stepIter ⟨[], ⟨0, 0, [79]⟩, 0, v0 :: .Int i :: .Reference p :: rest, lv⟩
          ⟨cs, ⟨cp, objs⟩⟩
        = .abort "index out of bounds") := by
  have hoob : i < 0 ∨ arr.count ≤ i → arr.store.length ≤ intAsUsize i := by
    intro hcase
    cases hcase with
    | inl hneg =>
      have hge := intAsUsize_neg i hlo hneg
      omega
    | inr hge =>
      have h0 : 0 ≤ i := le_trans hcnt0 hge
      rw [intAsUsize_nonneg i h0 (by omega)]
      omega
  refine ⟨?_, ?_, ?_, ?_⟩
  · intro h0 hic
    have hidx : intAsUsize i = i.toNat := intAsUsize_nonneg i h0 (by omega)
    have hlt : i.toNat < arr.store.length := by omega
    obtain ⟨v, hv⟩ : ∃ v, arr.store.get? i.toNat = some v := by
      cases hg : arr.store.get? i.toNat with
      | none => exact absurd (List.get?_eq_none.mp hg) (by omega)
      | some v => exact ⟨v, rfl⟩
    refine ⟨v, hv, ?_⟩
    have hv' := hv
    rw [List.get?_eq_getElem?] at hv'
    simp [stepIter, popInt, popOperand, ObjectHeap.get_array, ObjectHeap.get,
      ObjectHeap.resolve_pointer, AllocatedArray.index, List.get?, intAsUsize_zero,
      hfind, hidx, hv']
  · intro hcase
    have hnone : arr.store.get? (intAsUsize i) = none :=
      List.get?_eq_none.mpr (hoob hcase)
    rw [List.get?_eq_getElem?] at hnone
    simp [stepIter, popInt, popOperand, ObjectHeap.get_array, ObjectHeap.get,
      ObjectHeap.resolve_pointer, AllocatedArray.index, List.get?, intAsUsize_zero,
      hfind, hnone]
  · intro h0 hic
    have hidx : intAsUsize i = i.toNat := intAsUsize_nonneg i h0 (by omega)
    have hlt : i.toNat < arr.store.length := by omega
    simp [stepIter, popInt, popOperand, ObjectHeap.resolve_pointer,
      AllocatedArray.indexSet, List.get?, intAsUsize_zero, hfind, hidx, hlt]
  · intro hcase
    have hge : ¬ intAsUsize i < arr.store.length := by
      have := hoob hcase
      omega
    simp [stepIter, popInt, popOperand, ObjectHeap.resolve_pointer,
      AllocatedArray.indexSet, List.get?, intAsUsize_zero, hfind, hge]

/-- C10 witness: a three-element `Int` array at handle 0; index 1 succeeds
for both read and write, index −1 and index 3 abort. -/
theorem array_index_bounds_witness :
    ((0 : Int) ≤ 1 → (1 : Int) < 3 →
      ∃ v, [JavaType.Int 10, JavaType.Int 11, JavaType.Int 12].get? (1 : Int).toNat
          = some v ∧
        stepIter ⟨[], ⟨0, 0, [46]⟩, 0, [.Int 1, .Reference 0], []⟩
            ⟨[], ⟨1, [(0, .Array ⟨3, [JavaType.Int 10, JavaType.Int 11, JavaType.Int 12]⟩)]⟩⟩
          = .next ⟨[], ⟨0, 0, [46]⟩, 1, [v], []⟩
              ⟨[], ⟨1, [(0, .Array ⟨3, [JavaType.Int 10, JavaType.Int 11, JavaType.Int 12]⟩)]⟩⟩)
    ∧ ((1 : Int) < 0 ∨ (3 : Int) ≤ 1 →
      stepIter ⟨[], ⟨0, 0, [46]⟩, 0, [.Int 1, .Reference 0], []⟩
          ⟨[], ⟨1, [(0, .Array ⟨3, [JavaType.Int 10, JavaType.Int 11, JavaType.Int 12]⟩)]⟩⟩
        = .abort "index out of bounds")
    ∧ ((0 : Int) ≤ 1 → (1 : Int) < 3 →
      stepIter ⟨[], ⟨0, 0, [79]⟩, 0, [JavaType.Int 99, .Int 1, .Reference 0], []⟩
          ⟨[], ⟨1, [(0, .Array ⟨3, [JavaType.Int 10, JavaType.Int 11, JavaType.Int 12]⟩)]⟩⟩
        = .next ⟨[], ⟨0, 0, [79]⟩, 1, [], []⟩
            ⟨[], ⟨1, putHeap 0
              (.Array ⟨3, [JavaType.Int 10, JavaType.Int 11, JavaType.Int 12].set
                  (1 : Int).toNat (JavaType.Int 99)⟩)
              [(0, .Array ⟨3, [JavaType.Int 10, JavaType.Int 11, JavaType.Int 12]⟩)]⟩⟩)
    ∧ ((1 : Int) < 0 ∨ (3 : Int) ≤ 1 →
      stepIter ⟨[], ⟨0, 0, [79]⟩, 0, [JavaType.Int 99, .Int 1, .Reference 0], []⟩
          ⟨[], ⟨1, [(0, .Array ⟨3, [JavaType.Int 10, JavaType.Int 11, JavaType.Int 12]⟩)]⟩⟩
        = .abort "index out of bounds")
    ∧ stepIter ⟨[], ⟨0, 0, [46]⟩, 0, [.Int (-1), .Reference 0], []⟩
        ⟨[], ⟨1, [(0, .Array ⟨3, [JavaType.Int 10, JavaType.Int 11, JavaType.Int 12]⟩)]⟩⟩
      = .abort "index out of bounds" := by
  have h := array_index_bounds [] 1 0
    [(0, .Array ⟨3, [JavaType.Int 10, JavaType.Int 11, JavaType.Int 12]⟩)]
    ⟨3, [JavaType.Int 10, JavaType.Int 11, JavaType.Int 12]⟩ 1 (JavaType.Int 99)
    [] [] (by decide) (by decide) (by decide) (by decide) (by decide) (by decide)
  have hneg := (array_index_bounds [] 1 0
    [(0, .Array ⟨3, [JavaType.Int 10, JavaType.Int 11, JavaType.Int 12]⟩)]
    ⟨3, [JavaType.Int 10, JavaType.Int 11, JavaType.Int 12]⟩ (-1) (JavaType.Int 99)
    [] [] (by decide) (by decide) (by decide) (by decide) (by decide)
    (by decide)).2.1 (Or.inl (by decide))
  exact ⟨h.1, h.2.1, h.2.2.1, h.2.2.2, hneg⟩

end Pantomime
